import Mathlib

/-!
Verification of the usage-cost reconciliation scripts.

The repository is a set of diagnostic Python scripts. We embed their
arithmetic shallowly: token counts are `ℕ`, JSON integers are `ℤ`,
monetary amounts and per-token rates are `ℚ` (the scripts' real-number
arithmetic, read algebraically).
-/

namespace CCUsage

/-- The four per-category token sums of a daily aggregate
(spec data model; `find_exact_cache_rate.py` lines 14-17 reads them
from the reference tool's JSON). -/
structure TokenCounts where
  inputTokens : ℕ
  outputTokens : ℕ
  cacheCreationTokens : ℕ
  cacheReadTokens : ℕ
deriving DecidableEq

/-- Per-category USD-per-token rates (spec data model `PricingRate`). -/
structure PricingRate where
  inputRate : ℚ
  outputRate : ℚ
  cacheCreationRate : ℚ
  cacheReadRate : ℚ
deriving DecidableEq

/-- Modelled from the spec: the forward cost calculation of the Cost
Reconciler (the four-rate calculator lives in the companion app, which is
absent from the sources; the scripts only exercise it with equal cache
rates, see `scenarioCost`). -/
def totalCostCalc (t : TokenCounts) (p : PricingRate) : ℚ :=
  t.inputTokens * p.inputRate + t.outputTokens * p.outputRate +
    t.cacheCreationTokens * p.cacheCreationRate + t.cacheReadTokens * p.cacheReadRate

/-- Source `tests/reverse_engineer_pricing.py` lines 34-37 (`cost1`, also `cost2`):
forward cost with a single cache rate applied to both cache categories. -/
def scenarioCost (inputTokens outputTokens cacheCreate cacheRead : ℕ)
    (inputRate outputRate cacheRate : ℚ) : ℚ :=
  inputTokens * inputRate + outputTokens * outputRate +
    cacheCreate * cacheRate + cacheRead * cacheRate

/-- Source `tests/find_exact_cache_rate.py` line 24: `non_cache_cost`. -/
def nonCacheCost (inputTokens outputTokens : ℕ) (inputRate outputRate : ℚ) : ℚ :=
  inputTokens * inputRate + outputTokens * outputRate

/-- Source `tests/find_exact_cache_rate.py` lines 27-32: `effective_cache_rate =
(total_cost - non_cache_cost) / (cache_create + cache_read)`. -/
def effectiveCacheRate (inputTokens outputTokens cacheCreate cacheRead : ℕ)
    (inputRate outputRate totalCost : ℚ) : ℚ :=
  (totalCost - nonCacheCost inputTokens outputTokens inputRate outputRate) /
    ((cacheCreate : ℚ) + (cacheRead : ℚ))

/-- Source `tests/find_exact_cache_rate.py` lines 31-39: the division is only
performed under the guard `total_cache_tokens > 0`; a zero denominator
yields no rate (the unguarded division would be a DivideByZero). -/
def effectiveCacheRateChecked (inputTokens outputTokens cacheCreate cacheRead : ℕ)
    (inputRate outputRate totalCost : ℚ) : Option ℚ :=
  if cacheCreate + cacheRead = 0 then none
  else some (effectiveCacheRate inputTokens outputTokens cacheCreate cacheRead
    inputRate outputRate totalCost)

/-- C1: the forward cost calculation is exactly
`inputTokens*inputRate + outputTokens*outputRate +
cacheCreationTokens*cacheCreationRate + cacheReadTokens*cacheReadRate`;
it agrees with the scripts' single-cache-rate computation when the two
cache rates coincide; and on 1,000,000 input tokens at rate 3e-6 and
500,000 output tokens at rate 1.5e-5 with zero cache tokens it returns
exactly 10.50. -/
theorem forward_cost_spec (t : TokenCounts) (p : PricingRate) :
    totalCostCalc t p =
      t.inputTokens * p.inputRate + t.outputTokens * p.outputRate +
        t.cacheCreationTokens * p.cacheCreationRate + t.cacheReadTokens * p.cacheReadRate
    ∧ (∀ ir outr cr : ℚ,
        totalCostCalc t ⟨ir, outr, cr, cr⟩ =
          scenarioCost t.inputTokens t.outputTokens t.cacheCreationTokens t.cacheReadTokens
            ir outr cr)
    ∧ (∀ ccr crr : ℚ,
        totalCostCalc ⟨1000000, 500000, 0, 0⟩ ⟨3/1000000, 15/1000000, ccr, crr⟩ = 105/10) := by
  refine ⟨rfl, fun ir outr cr => rfl, fun ccr crr => ?_⟩
  simp [totalCostCalc]
  norm_num

/-- C2: inverting the total cost produced by the forward calculation with
both cache categories priced at a single rate `r` recovers `r` exactly,
whenever the cache-token sum is positive. -/
theorem inversion_roundtrip (t : TokenCounts) (ir outr r : ℚ)
    (h : 0 < t.cacheCreationTokens + t.cacheReadTokens) :
    effectiveCacheRate t.inputTokens t.outputTokens t.cacheCreationTokens t.cacheReadTokens
      ir outr (totalCostCalc t ⟨ir, outr, r, r⟩) = r := by
  have hne : ((t.cacheCreationTokens : ℚ) + (t.cacheReadTokens : ℚ)) ≠ 0 := by
    have : ((t.cacheCreationTokens + t.cacheReadTokens : ℕ) : ℚ) ≠ 0 := by
      exact_mod_cast Nat.pos_iff_ne_zero.mp h
    push_cast at this
    exact this
  unfold effectiveCacheRate nonCacheCost totalCostCalc
  field_simp
  ring

/-- Witness for C2 at concrete input: one cache-creation token, zero
rates elsewhere, cache rate 5. -/
theorem inversion_roundtrip_witness :
    effectiveCacheRate 0 0 1 0 0 0 (totalCostCalc ⟨0, 0, 1, 0⟩ ⟨0, 0, 5, 5⟩) = 5 :=
  inversion_roundtrip ⟨0, 0, 1, 0⟩ 0 0 5 (by decide)

/-- C3: the guarded inversion yields no result exactly when
`cacheCreationTokens + cacheReadTokens = 0`, and under the caller's
positivity guard it returns exactly
`(totalCost - inputTokens*inputRate - outputTokens*outputRate) /
(cacheCreationTokens + cacheReadTokens)`. -/
theorem inversion_formula (i o cc cr : ℕ) (ir outr tc : ℚ) :
    (effectiveCacheRateChecked i o cc cr ir outr tc = none ↔ cc + cr = 0)
    ∧ (0 < cc + cr →
        effectiveCacheRateChecked i o cc cr ir outr tc =
          some ((tc - (i : ℚ) * ir - (o : ℚ) * outr) / ((cc : ℚ) + (cr : ℚ)))) := by
  constructor
  · constructor
    · intro h
      by_contra hne
      simp [effectiveCacheRateChecked, hne] at h
    · intro h
      simp [effectiveCacheRateChecked, h]
  · intro h
    have hne : cc + cr ≠ 0 := Nat.pos_iff_ne_zero.mp h
    simp [effectiveCacheRateChecked, hne, effectiveCacheRate, nonCacheCost]
    ring_nf

/-- Witness for C3 at the spec's worked example: totalCost 10.50,
1,000,000 input tokens at 3e-6, 500,000 output tokens at 1.5e-5,
100,000 cache-creation tokens, giving effective cache rate 0. -/
theorem inversion_formula_witness :
    0 < 100000 + 0
    ∧ effectiveCacheRateChecked 1000000 500000 100000 0 (3/1000000) (15/1000000) (105/10) =
        some ((105/10 - (1000000 : ℚ) * (3/1000000) - (500000 : ℚ) * (15/1000000)) /
          ((100000 : ℚ) + (0 : ℚ))) :=
  ⟨by decide,
    (inversion_formula 1000000 500000 100000 0 (3/1000000) (15/1000000) (105/10)).2 (by decide)⟩

/-- Python semantics: `s.startsWithChars p` is Python's `s.startswith(p)` on character lists. -/
def startsWithChars : List Char → List Char → Bool
  | _, [] => true
  | [], _ :: _ => false
  | c :: s, d :: p => c == d && startsWithChars s p

/-- One usage record as read by `check_costUSD_field.py`: the `timestamp`
and `costUSD` JSON fields may be absent. The four token counts are the
spec's `UsageRecord` attributes (the token-summing scanner lives in the
companion app; modelled from the spec for the aggregate). -/
structure UsageRecord where
  timestamp : Option (List Char)
  costUSD : Option ℚ
  inputTokens : ℕ
  outputTokens : ℕ
  cacheCreationTokens : ℕ
  cacheReadTokens : ℕ
deriving DecidableEq

/-- The scanner's daily aggregate: `has_cost` / `no_cost` counters and
`total_cost_from_field` from `check_costUSD_field.py` lines 8-10, plus the
four token sums of the spec's `DailyAggregate` (modelled from the spec:
the token-summing aggregation is in the companion app). -/
structure DailyAgg where
  hasCost : ℕ
  noCost : ℕ
  costSum : ℚ
  inputTokens : ℕ
  outputTokens : ℕ
  cacheCreationTokens : ℕ
  cacheReadTokens : ℕ
deriving DecidableEq

/-- Source `check_costUSD_field.py` line 13: the hard-coded target date. -/
def targetDate : List Char := ['2', '0', '2', '5', '-', '0', '6', '-', '0', '9']

/-- Source `check_costUSD_field.py` lines 19-21: `data.get('timestamp', '')`
followed by `timestamp.startswith('2025-06-09')` (with the date taken as
a parameter `d`). -/
def recMatches (d : List Char) (r : UsageRecord) : Bool :=
  startsWithChars (r.timestamp.getD []) d

/-- The aggregation over the records that survived scanning
(`check_costUSD_field.py` lines 21-32: tally records with/without a
`costUSD` field and sum the field where present; token sums modelled
from the spec). -/
def aggregate (d : List Char) (rs : List UsageRecord) : DailyAgg :=
  let m := rs.filter (recMatches d)
  { hasCost := (m.filter (fun r => r.costUSD.isSome)).length
    noCost := (m.filter (fun r => r.costUSD.isNone)).length
    costSum := (m.filterMap (fun r => r.costUSD)).sum
    inputTokens := (m.map (fun r => r.inputTokens)).sum
    outputTokens := (m.map (fun r => r.outputTokens)).sum
    cacheCreationTokens := (m.map (fun r => r.cacheCreationTokens)).sum
    cacheReadTokens := (m.map (fun r => r.cacheReadTokens)).sum }

/-- One line of a JSONL file: blank (skipped by `if line.strip()`),
malformed (raises in `json.loads`), or a parsed record. -/
inductive Line
  | blank
  | malformed
  | record (r : UsageRecord)
deriving DecidableEq

/-- Source `check_costUSD_field.py` lines 15-21 inside the `try`: lines of one
file are consumed in order; a blank line is skipped; a malformed line
raises `json.JSONDecodeError`, which the bare `except` catches, so the
rest of the file is abandoned (records already consumed are kept). -/
def processFile : List Line → List UsageRecord
  | [] => []
  | Line.blank :: rest => processFile rest
  | Line.malformed :: _ => []
  | Line.record r :: rest => r :: processFile rest

/-- Source `check_costUSD_field.py` lines 14-36: each file is wrapped in
`try ... except: continue`, so a file that cannot be opened (`none`)
is skipped and scanning continues with the remaining files. -/
def scanFiles : List (Option (List Line)) → List UsageRecord
  | [] => []
  | none :: rest => scanFiles rest
  | some ls :: rest => processFile ls ++ scanFiles rest

/-- A concrete valid record whose timestamp matches the target date. -/
def sampleRecord : UsageRecord :=
  { timestamp := some (targetDate ++ ['T', '0', '0'])
    costUSD := some 1
    inputTokens := 1
    outputTokens := 0
    cacheCreationTokens := 0
    cacheReadTokens := 0 }

/-- Counterexample to C5: a file whose malformed line precedes its one
valid matching record aggregates to nothing — the malformed line is not
merely skipped, it aborts the rest of the file. -/
theorem malformed_line_counterexample :
    aggregate targetDate (scanFiles [some [Line.malformed, Line.record sampleRecord]]) ≠
      aggregate targetDate [sampleRecord] := by
  decide

/-- C5 (amended): a malformed line ends processing of its own file but
does not abort the scan, so a file with one valid matching record
followed by a malformed line contributes exactly the valid record, and a
file that cannot be opened is silently skipped while scanning continues
with the remaining files. -/
theorem malformed_line_scan (r : UsageRecord) (ls : List Line)
    (rest : List (Option (List Line))) (d : List Char) :
    scanFiles (some [Line.record r, Line.malformed] :: rest) = r :: scanFiles rest
    ∧ scanFiles (none :: rest) = scanFiles rest
    ∧ aggregate d (scanFiles [some [Line.record r, Line.malformed], none, some ls]) =
        aggregate d (r :: processFile ls) := by
  refine ⟨rfl, rfl, ?_⟩
  simp [scanFiles, processFile]

/-- C6: the daily aggregate is invariant under any permutation of the
scanned records (within and across files, the scan is a flat record
list). -/
theorem aggregate_perm_invariant (d : List Char) (rs₁ rs₂ : List UsageRecord)
    (h : rs₁.Perm rs₂) :
    aggregate d rs₁ = aggregate d rs₂ := by
  have hf : (rs₁.filter (recMatches d)).Perm (rs₂.filter (recMatches d)) := h.filter _
  simp only [aggregate, DailyAgg.mk.injEq]
  exact ⟨(hf.filter _).length_eq, (hf.filter _).length_eq,
    (hf.filterMap _).sum_eq, (hf.map _).sum_eq, (hf.map _).sum_eq,
    (hf.map _).sum_eq, (hf.map _).sum_eq⟩

/-- A second concrete record, not matching the target date. -/
def sampleRecordNoCost : UsageRecord :=
  { timestamp := some targetDate
    costUSD := none
    inputTokens := 0
    outputTokens := 2
    cacheCreationTokens := 0
    cacheReadTokens := 0 }

/-- Witness for C6: swapping two concrete records leaves the aggregate
unchanged. -/
theorem aggregate_perm_invariant_witness :
    aggregate targetDate [sampleRecord, sampleRecordNoCost] =
      aggregate targetDate [sampleRecordNoCost, sampleRecord] :=
  aggregate_perm_invariant targetDate _ _ (List.Perm.swap _ _ _)

/-- C10: a record whose JSON object lacks a `timestamp` field gets the
empty-string default, which no non-empty date filter matches, so the
record contributes to no tally of the aggregate. -/
theorem missing_timestamp_excluded (d : List Char) (r : UsageRecord)
    (rs : List UsageRecord) (hd : d ≠ []) (ht : r.timestamp = none) :
    aggregate d (r :: rs) = aggregate d rs := by
  have hm : recMatches d r = false := by
    cases d with
    | nil => exact absurd rfl hd
    | cons c cs => simp [recMatches, ht, startsWithChars]
  simp [aggregate, List.filter, hm]

/-- A concrete record with no `timestamp` field. -/
def noTimestampRecord : UsageRecord :=
  { timestamp := none
    costUSD := some 3
    inputTokens := 7
    outputTokens := 0
    cacheCreationTokens := 0
    cacheReadTokens := 0 }

/-- Witness for C10: a concrete timestamp-less record is excluded from
the aggregate for the concrete target date. -/
theorem missing_timestamp_excluded_witness :
    targetDate ≠ []
    ∧ aggregate targetDate [noTimestampRecord] = aggregate targetDate [] :=
  ⟨by decide,
    missing_timestamp_excluded targetDate noTimestampRecord [] (by decide) rfl⟩

/-- The per-tool record built by the fetchers in
`swift-cli/compare_json.py` (lines 22-31 and 62-71): the five compared
metrics plus `totalCost`. -/
structure RefData where
  inputTokens : ℤ
  outputTokens : ℤ
  cacheCreationTokens : ℤ
  cacheReadTokens : ℤ
  totalTokens : ℤ
  totalCost : ℚ
deriving DecidableEq

/-- Source `swift-cli/compare_json.py` lines 92-98: the five compared metrics,
in table order. -/
def metricValues (d : RefData) : List ℤ :=
  [d.inputTokens, d.outputTokens, d.cacheCreationTokens, d.cacheReadTokens, d.totalTokens]

/-- The outcome of `compare_results`: per-metric absolute differences and
match flags, the `all_match` flag, and the accuracy percentage when the
script computes one. -/
structure ComparisonResult where
  diffs : List ℤ
  matchFlags : List Bool
  allMatch : Bool
  accuracy : Option ℚ
deriving DecidableEq

/-- Source `swift-cli/compare_json.py` lines 82-127 (`compare_results`): per
metric, `diff = abs(ccusage_val - swift_val)` and a match flag
`diff == 0`; `total_diff` accumulates only the non-zero diffs; the
accuracy `(1.0 - total_diff / ccusage_total) * 100` is printed only when
not all metrics match and the reference `totalTokens` is positive. -/
def compare_results (c s : RefData) : ComparisonResult :=
  let diffs := List.zipWith (fun a b => |a - b|) (metricValues c) (metricValues s)
  let totalDiff := (diffs.filter (fun x => decide (x ≠ 0))).sum
  { diffs := diffs
    matchFlags := diffs.map (fun x => decide (x = 0))
    allMatch := diffs.all (fun x => decide (x = 0))
    accuracy :=
      if diffs.all (fun x => decide (x = 0)) then none
      else if 0 < c.totalTokens then
        some ((1 - (totalDiff : ℚ) / (c.totalTokens : ℚ)) * 100)
      else none }

/-- Summing only the non-zero entries of an integer list sums the whole
list. -/
theorem sum_filter_ne_zero (l : List ℤ) :
    (l.filter (fun x => decide (x ≠ 0))).sum = l.sum := by
  simp only [ne_eq, decide_not]
  induction l with
  | nil => rfl
  | cons a t ih =>
    by_cases ha : a = 0 <;> simp [List.filter_cons, ha, ih]

/-- C4: each match flag is true exactly when that metric's absolute
difference is zero; the accuracy is not computed when the reference
`totalTokens` is zero; when some metric differs and the reference
`totalTokens` is positive the accuracy is
`(1 - sumOfAbsoluteDiffs / referenceTotalTokens) * 100`; and identical
metric values give a perfect match. -/
theorem compare_results_spec (c s : RefData) :
    List.Forall₂ (fun (m : Bool) (d : ℤ) => m = true ↔ d = 0)
      (compare_results c s).matchFlags (compare_results c s).diffs
    ∧ (c.totalTokens = 0 → (compare_results c s).accuracy = none)
    ∧ ((compare_results c s).allMatch = false → 0 < c.totalTokens →
        (compare_results c s).accuracy =
          some ((1 - ((compare_results c s).diffs.sum : ℚ) / (c.totalTokens : ℚ)) * 100))
    ∧ (metricValues c = metricValues s → (compare_results c s).allMatch = true) := by
  refine ⟨?_, ?_, ?_, ?_⟩
  · simp only [compare_results]
    rw [List.forall₂_map_left_iff]
    rw [List.forall₂_same]
    intro x _
    simp
  · intro h
    by_cases hall :
        (List.zipWith (fun a b => |a - b|) (metricValues c) (metricValues s)).all
          (fun x => decide (x = 0)) <;>
      simp [compare_results, hall, h]
  · intro hall hpos
    simp only [compare_results] at hall ⊢
    rw [if_neg (by simp [hall]), if_pos hpos, sum_filter_ne_zero]
  · intro h
    simp only [compare_results, h, List.all_eq_true, List.zipWith_same]
    intro x hx
    simp only [List.mem_map] at hx
    obtain ⟨a, _, rfl⟩ := hx
    simp

/-- Witness for C4: concrete non-matching records with reference
`totalTokens = 1` get the stated accuracy. -/
theorem compare_results_spec_witness :
    (compare_results ⟨1, 0, 0, 0, 1, 0⟩ ⟨0, 0, 0, 0, 0, 0⟩).accuracy =
      some ((1 - ((compare_results ⟨1, 0, 0, 0, 1, 0⟩ ⟨0, 0, 0, 0, 0, 0⟩).diffs.sum : ℚ) /
        (((1 : ℤ) : ℚ))) * 100) :=
  (compare_results_spec ⟨1, 0, 0, 0, 1, 0⟩ ⟨0, 0, 0, 0, 0, 0⟩).2.2.1 (by decide) (by decide)

/-- C9: the comparison's diff total ranges over five metrics — the four
token categories plus `totalTokens` — so when each side's `totalTokens`
is the sum of its four categories and the per-category discrepancies all
have the same sign, the total is exactly twice the four-category
absolute-difference sum. -/
theorem five_metric_double_count (c s : RefData)
    (hc : c.totalTokens =
      c.inputTokens + c.outputTokens + c.cacheCreationTokens + c.cacheReadTokens)
    (hs : s.totalTokens =
      s.inputTokens + s.outputTokens + s.cacheCreationTokens + s.cacheReadTokens)
    (hsign :
      (0 ≤ c.inputTokens - s.inputTokens ∧ 0 ≤ c.outputTokens - s.outputTokens ∧
        0 ≤ c.cacheCreationTokens - s.cacheCreationTokens ∧
        0 ≤ c.cacheReadTokens - s.cacheReadTokens) ∨
      (c.inputTokens - s.inputTokens ≤ 0 ∧ c.outputTokens - s.outputTokens ≤ 0 ∧
        c.cacheCreationTokens - s.cacheCreationTokens ≤ 0 ∧
        c.cacheReadTokens - s.cacheReadTokens ≤ 0)) :
    (compare_results c s).diffs.sum =
      2 * (|c.inputTokens - s.inputTokens| + |c.outputTokens - s.outputTokens| +
        |c.cacheCreationTokens - s.cacheCreationTokens| +
        |c.cacheReadTokens - s.cacheReadTokens|) := by
  simp only [compare_results, metricValues, List.zipWith, List.sum_cons, List.sum_nil]
  rw [hc, hs]
  rcases hsign with ⟨h1, h2, h3, h4⟩ | ⟨h1, h2, h3, h4⟩
  · rw [abs_of_nonneg h1, abs_of_nonneg h2, abs_of_nonneg h3, abs_of_nonneg h4,
      abs_of_nonneg (by linarith)]
    ring
  · rw [abs_of_nonpos h1, abs_of_nonpos h2, abs_of_nonpos h3, abs_of_nonpos h4,
      abs_of_nonpos (by linarith)]
    ring

/-- Witness for C9 at concrete records: diffs `[1,0,1,0,2]` sum to 4,
twice the four-category sum 2. -/
theorem five_metric_double_count_witness :
    (compare_results ⟨2, 1, 1, 0, 4, 0⟩ ⟨1, 1, 0, 0, 2, 0⟩).diffs.sum =
      2 * (|(2 : ℤ) - 1| + |(1 : ℤ) - 1| + |(1 : ℤ) - 0| + |(0 : ℤ) - 0|) :=
  five_metric_double_count ⟨2, 1, 1, 0, 4, 0⟩ ⟨1, 1, 0, 0, 2, 0⟩ (by decide) (by decide)
    (by decide)

/-- A `subprocess.run` invocation as configured statically in a script:
the argument vector and the `timeout` keyword, in seconds, when one is
passed. -/
structure SubprocessCall where
  command : List String
  timeoutSeconds : Option ℕ
deriving DecidableEq

/-- Source `swift-cli/compare_json.py` lines 11-12: reference tool with
`timeout=30`. -/
def compareJsonCcusageCall : SubprocessCall :=
  { command := ["npx", "ccusage@latest", "daily", "--json"], timeoutSeconds := some 30 }

/-- Source `swift-cli/compare_json.py` lines 49-50: candidate tool with
`timeout=30`. -/
def compareJsonSwiftCall : SubprocessCall :=
  { command := ["swift", "simple_output.swift", "--json"], timeoutSeconds := some 30 }

/-- Source `tests/find_exact_cache_rate.py` lines 7-8: no `timeout` keyword. -/
def findExactCacheRateCall : SubprocessCall :=
  { command := ["npx", "ccusage@latest", "daily", "--json"], timeoutSeconds := none }

/-- Source `compare_cost_not_tokens.py` lines 7-8: no `timeout` keyword. -/
def compareCostNotTokensCall : SubprocessCall :=
  { command := ["npx", "ccusage@latest", "daily", "--json"], timeoutSeconds := none }

/-- Source `tests/test_cost.py` lines 7-8: no `timeout` keyword. -/
def testCostCall : SubprocessCall :=
  { command := ["npx", "ccusage@latest", "daily", "--json"], timeoutSeconds := none }

/-- Source `tests/reverse_engineer_pricing.py` lines 7-8: no `timeout`
keyword. -/
def reverseEngineerCall : SubprocessCall :=
  { command := ["npx", "ccusage@latest", "daily", "--json"], timeoutSeconds := none }

/-- Every subprocess invocation of the external reference tool in the
repository. -/
def referenceToolCalls : List SubprocessCall :=
  [compareJsonCcusageCall, findExactCacheRateCall, compareCostNotTokensCall,
    testCostCall, reverseEngineerCall]

/-- One per-date entry of the reference tool's parsed JSON `daily`
array. -/
structure DailyEntry where
  date : List Char
  inputTokens : ℤ
  outputTokens : ℤ
  cacheCreationTokens : ℤ
  cacheReadTokens : ℤ
  totalTokens : ℤ
  totalCost : Option ℚ
deriving DecidableEq

/-- The reference tool's standard output as seen by `json.loads`:
either unparseable, or a parsed `daily` array. -/
inductive CcusageStdout
  | parseError
  | parsed (daily : List DailyEntry)
deriving DecidableEq

/-- The observable outcome of the subprocess invocation: a
`TimeoutExpired`, or completion with an exit code and standard output. -/
inductive SubprocessOutcome
  | timeout
  | completed (exitCode : ℤ) (stdout : CcusageStdout)
deriving DecidableEq

/-- Source `swift-cli/compare_json.py` lines 8-44 (`run_ccusage_json`): on
timeout, non-zero exit, parse failure, or a missing target date the
function prints a descriptive message to stderr and returns `None`;
otherwise it returns the first matching entry's metrics with
`totalCost` defaulting to 0. The second component collects the stderr
messages (the script interpolates the subprocess stderr and the decoder
error into them; the descriptive stem is modelled). -/
def run_ccusage_json (outcome : SubprocessOutcome) : Option RefData × List String :=
  match outcome with
  | SubprocessOutcome.timeout => (none, ["ccusage timed out"])
  | SubprocessOutcome.completed exitCode out =>
    if exitCode ≠ 0 then (none, ["ccusage failed"])
    else
      match out with
      | CcusageStdout.parseError => (none, ["Failed to parse ccusage JSON"])
      | CcusageStdout.parsed daily =>
        match daily.find? (fun e => e.date = targetDate) with
        | some e =>
          (some
            { inputTokens := e.inputTokens
              outputTokens := e.outputTokens
              cacheCreationTokens := e.cacheCreationTokens
              cacheReadTokens := e.cacheReadTokens
              totalTokens := e.totalTokens
              totalCost := e.totalCost.getD 0 }, [])
        | none => (none, ["No data found for 2025-06-09 in ccusage output"])

/-- Counterexample to C7: not every subprocess invocation of the
reference tool carries the 30-second timeout — the one in
`tests/find_exact_cache_rate.py` (among others) passes no timeout. -/
theorem timeout_counterexample :
    ¬ ∀ call ∈ referenceToolCalls, call.timeoutSeconds = some 30 := by
  decide

/-- C7 (amended): the JSON-comparison script's two invocations carry the
30-second timeout while the other scripts' reference-tool invocations
carry none; and the comparison script's fetcher, on timeout, non-zero
exit code, or JSON parse failure, emits a descriptive error message and
yields no data instead of raising or retrying. -/
theorem timeout_and_fetcher_errors :
    compareJsonCcusageCall.timeoutSeconds = some 30
    ∧ compareJsonSwiftCall.timeoutSeconds = some 30
    ∧ (∀ call ∈ [findExactCacheRateCall, compareCostNotTokensCall, testCostCall,
        reverseEngineerCall], call.timeoutSeconds = none)
    ∧ run_ccusage_json SubprocessOutcome.timeout = (none, ["ccusage timed out"])
    ∧ (∀ (code : ℤ) (out : CcusageStdout), code ≠ 0 →
        run_ccusage_json (SubprocessOutcome.completed code out) = (none, ["ccusage failed"]))
    ∧ run_ccusage_json (SubprocessOutcome.completed 0 CcusageStdout.parseError) =
        (none, ["Failed to parse ccusage JSON"]) := by
  refine ⟨rfl, rfl, by decide, rfl, ?_, rfl⟩
  intro code out hcode
  simp [run_ccusage_json, hcode]

/-- Witness for C7 (amended) at a concrete non-zero exit code. -/
theorem timeout_and_fetcher_errors_witness :
    run_ccusage_json (SubprocessOutcome.completed 1 CcusageStdout.parseError) =
      (none, ["ccusage failed"]) :=
  timeout_and_fetcher_errors.2.2.2.2.1 1 CcusageStdout.parseError (by decide)

/-- Source `swift-cli/compare_json.py` lines 129-171 (`main`): after both
fetchers return, a missing ccusage result exits with status 1, then a
missing Swift CLI result exits with status 1; otherwise the comparison
and the performance report run and the script falls off the end of
`main`, exiting 0. -/
def mainExitCode (ccusageData swiftData : Option RefData) : ℕ :=
  if ccusageData.isNone then 1
  else if swiftData.isNone then 1
  else 0

/-- C8: the exit code is 1 exactly when at least one fetcher yielded no
result, and any run in which both fetchers return data completes with
exit code 0. -/
theorem exit_code_spec (c s : Option RefData) :
    (mainExitCode c s = 1 ↔ c = none ∨ s = none)
    ∧ (∀ rc rs : RefData, mainExitCode (some rc) (some rs) = 0) := by
  constructor
  · cases c <;> cases s <;> simp [mainExitCode]
  · intro rc rs
    rfl

end CCUsage
